import Mathlib

/-!
Shallow embedding of the Trading Analytics frontend engine pieces:
the progressive capability gate, the triggered-alert history, the analytics
snapshot suppression, the z-score/spread history buffers, alert deletion,
alert-creation form validation, the rolling z-score, and the chart data
formatter. Each definition is translated from the corresponding JavaScript
source; theorems below settle the specification claims against them.
-/

namespace TradingApp

/-- One entry of the capability object: whether the feature is enabled at the
current data-point count and the `required` threshold it advertises. -/
structure CapEntry where
  enabled : Bool
  required : Nat
  featureName : String
  deriving Repr, DecidableEq

/-- The capability object shape shared by both `getCapabilities` definitions. -/
structure Capabilities where
  basicPriceTracking : CapEntry
  volumeAnalysis : CapEntry
  zScoreCalculation : CapEntry
  volatilityMetrics : CapEntry
  correlationAnalysis : CapEntry
  spreadTrading : CapEntry
  hedgeRatioCalc : CapEntry
  adfStationarity : CapEntry
  fullHistoricalCharts : CapEntry
  deriving Repr, DecidableEq

/-- `getCapabilities` from the upload page (src/unnamed/part_005, lines 25-39),
as a function of `dataPoints = analytics?.data_points || 0`. -/
def getCapabilitiesUploadPage (dataPoints : Nat) : Capabilities :=
  { basicPriceTracking := ⟨decide (dataPoints ≥ 1), 1, "Price Tracking"⟩
    volumeAnalysis := ⟨decide (dataPoints ≥ 10), 10, "Volume Analysis"⟩
    zScoreCalculation := ⟨decide (dataPoints ≥ 20), 20, "Z-Score Calculation"⟩
    volatilityMetrics := ⟨decide (dataPoints ≥ 50), 50, "Volatility Metrics"⟩
    correlationAnalysis := ⟨decide (dataPoints ≥ 100), 100, "Correlation Analysis"⟩
    spreadTrading := ⟨decide (dataPoints ≥ 100), 100, "Spread Trading"⟩
    hedgeRatioCalc := ⟨decide (dataPoints ≥ 150), 150, "Hedge Ratio"⟩
    adfStationarity := ⟨decide (dataPoints ≥ 200), 200, "ADF Test (Stationarity)"⟩
    fullHistoricalCharts := ⟨decide (dataPoints ≥ 200), 200, "Full Historical Charts"⟩ }

/-- `getCapabilities` from the OHLC upload widget
(src/QAfrontend/src/components/OHLCUploadWidget.jsx, lines 9-25), as a function
of `dataPoints = sum of analytics.tick_count values, else 0`. -/
def getCapabilitiesWidget (dataPoints : Nat) : Capabilities :=
  { basicPriceTracking := ⟨decide (dataPoints ≥ 1), 1, "Price Tracking"⟩
    volumeAnalysis := ⟨decide (dataPoints ≥ 10), 10, "Volume Analysis"⟩
    zScoreCalculation := ⟨decide (dataPoints ≥ 20), 20, "Z-Score Calculation"⟩
    volatilityMetrics := ⟨decide (dataPoints ≥ 50), 50, "Volatility Metrics"⟩
    correlationAnalysis := ⟨decide (dataPoints ≥ 100), 100, "Correlation Analysis"⟩
    spreadTrading := ⟨decide (dataPoints ≥ 100), 100, "Spread Trading"⟩
    hedgeRatioCalc := ⟨decide (dataPoints ≥ 150), 150, "Hedge Ratio"⟩
    adfStationarity := ⟨decide (dataPoints ≥ 200), 200, "ADF Test (Stationarity)"⟩
    fullHistoricalCharts := ⟨decide (dataPoints ≥ 200), 200, "Full Historical Charts"⟩ }

/-- The list of (enabled, required) pairs of a capability object, in the order
the features are declared. -/
def Capabilities.gateList (c : Capabilities) : List (Bool × Nat) :=
  [ (c.basicPriceTracking.enabled, c.basicPriceTracking.required)
  , (c.volumeAnalysis.enabled, c.volumeAnalysis.required)
  , (c.zScoreCalculation.enabled, c.zScoreCalculation.required)
  , (c.volatilityMetrics.enabled, c.volatilityMetrics.required)
  , (c.correlationAnalysis.enabled, c.correlationAnalysis.required)
  , (c.spreadTrading.enabled, c.spreadTrading.required)
  , (c.hedgeRatioCalc.enabled, c.hedgeRatioCalc.required)
  , (c.adfStationarity.enabled, c.adfStationarity.required)
  , (c.fullHistoricalCharts.enabled, c.fullHistoricalCharts.required) ]

/-- A triggered alert as delivered in an `alert_triggered` stream event
(`data.alert`). -/
structure TriggeredAlert where
  id : Nat
  name : String
  symbol : String
  condition : String
  currentValue : Rat
  timestampMs : Nat
  deriving Repr, DecidableEq

/-- The state update of the `alert_triggered` handler on the triggered-alert
history (src/unnamed/part_001 line 148 and AlertsManager.jsx line 171):
`setTriggeredAlerts(prev => [data.alert, ...prev.slice(0, 99)])`.
The history is stored newest-first. -/
def onAlertTriggered (prev : List TriggeredAlert) (a : TriggeredAlert) :
    List TriggeredAlert :=
  a :: prev.take 99

/-- An analytics snapshot as compared by `updateAnalytics`; the per-symbol
JSON objects `price`, `zscore`, `spread`, `correlation` are association lists,
compared structurally (the source compares their `JSON.stringify` forms). -/
structure Analytics where
  price : List (String × Rat)
  zscore : List (String × Rat)
  spread : List (String × Rat)
  correlation : List (String × Rat)
  timestampMs : Nat
  deriving Repr, DecidableEq

/-- `updateAnalytics` (TradingDashboard.jsx lines 74-90): keep the previous
snapshot reference unless `price`, `zscore` or `spread` changed. -/
def updateAnalytics (prev : Option Analytics) (next : Analytics) :
    Option Analytics :=
  match prev with
  | none => some next
  | some p =>
      if p.price ≠ next.price ∨ p.zscore ≠ next.zscore ∨ p.spread ≠ next.spread
      then some next
      else some p

/-- A point of the rolling z-score (or spread) history: `ts` is the
`toLocaleTimeString()`-formatted stream timestamp, `value` the z-score (or
spread), `time` the `Date.now()` arrival time. -/
structure ZPoint where
  ts : String
  value : Rat
  time : Nat
  deriving Repr, DecidableEq

/-- `MAX_HISTORY_POINTS` (TradingDashboard.jsx line 32). -/
def MAX_HISTORY_POINTS : Nat := 100

/-- Append a point and truncate to the most recent `MAX_HISTORY_POINTS`
entries: `updated.length > MAX ? updated.slice(-MAX) : updated`. -/
def appendCapped (prev : List ZPoint) (p : ZPoint) : List ZPoint :=
  let updated := prev ++ [p]
  if updated.length > MAX_HISTORY_POINTS then
    updated.drop (updated.length - MAX_HISTORY_POINTS)
  else updated

/-- The z-score (and spread) history update (TradingDashboard.jsx lines
111-135 and 139-162): drop the incoming point only when its formatted
timestamp equals that of the last stored point, else append and truncate. -/
def pushZscore (prev : List ZPoint) (p : ZPoint) : List ZPoint :=
  match prev.getLast? with
  | some lastPoint =>
      if lastPoint.ts = p.ts then prev else appendCapped prev p
  | none => appendCapped prev p

/-- An alert rule as held in the `alerts` list. -/
structure AlertRule where
  id : Nat
  name : String
  symbol : String
  condition : String
  thresholdValue : Rat
  active : Bool
  deriving Repr, DecidableEq

/-- The local state update of a successful `deleteAlert`
(src/unnamed/part_001 line 77 and AlertsManager.jsx line 97):
`setAlerts(prev => prev.filter(alert => alert.id !== alertId))`. -/
def deleteAlertLocal (alerts : List AlertRule) (alertId : Nat) :
    List AlertRule :=
  alerts.filter (fun alert => alert.id != alertId)

/-- Fixture: a triggered alert used in concrete instances. -/
def taFix : TriggeredAlert :=
  { id := 7, name := "BTC Alert", symbol := "BTCUSDT", condition := "zscore_above"
    currentValue := 3, timestampMs := 1000 }

/-- Fixture: a second triggered alert. -/
def taFix2 : TriggeredAlert :=
  { id := 8, name := "ETH Alert", symbol := "ETHUSDT", condition := "price_below"
    currentValue := 2, timestampMs := 2000 }

/-- Fixture snapshot A. -/
def caA : Analytics :=
  { price := [("BTCUSDT", 100)], zscore := [("BTCUSDT", 1)]
    spread := [("BTCUSDT_ETHUSDT", 2)], correlation := [("BTCUSDT_ETHUSDT", 0)]
    timestampMs := 0 }

/-- Fixture snapshot B: identical to `caA` except for `correlation`. -/
def caB : Analytics :=
  { price := [("BTCUSDT", 100)], zscore := [("BTCUSDT", 1)]
    spread := [("BTCUSDT_ETHUSDT", 2)], correlation := [("BTCUSDT_ETHUSDT", 1)]
    timestampMs := 5 }

/-- Fixture snapshot C: identical to `caA` except for `price`. -/
def caC : Analytics :=
  { price := [("BTCUSDT", 101)], zscore := [("BTCUSDT", 1)]
    spread := [("BTCUSDT_ETHUSDT", 2)], correlation := [("BTCUSDT_ETHUSDT", 0)]
    timestampMs := 6 }

/-- Fixture history point at formatted time 10:00:05. -/
def zA : ZPoint := { ts := "10:00:05", value := 1, time := 5000 }

/-- Fixture history point at the earlier formatted time 10:00:03. -/
def zB : ZPoint := { ts := "10:00:03", value := 2, time := 6000 }

/-- Fixture alert rule with id 1. -/
def ruleFix1 : AlertRule :=
  { id := 1, name := "r1", symbol := "BTCUSDT", condition := "zscore_above"
    thresholdValue := 5/2, active := true }

/-- Fixture alert rule with id 2. -/
def ruleFix2 : AlertRule :=
  { id := 2, name := "r2", symbol := "ETHUSDT", condition := "price_above"
    thresholdValue := 50, active := true }

/-- Fixture alerts list: rule 1, rule 2, rule 1 again appears once more
under a different name to exercise duplicates of an id. -/
def demoAlerts : List AlertRule :=
  [ruleFix1, ruleFix2, { ruleFix1 with name := "r1b" }]

/-- Fixture history point sharing the formatted timestamp of `zA`. -/
def zA2 : ZPoint := { ts := "10:00:05", value := 3, time := 7000 }

/-- The closed set of alert conditions offered by the select of the creation form
(AlertModal.jsx lines 112-123); the `condition` field of the form state is
initialized to `zscore_above` and only ever written from this select. -/
inductive AlertCondition where
  | zscore_above
  | zscore_below
  | price_above
  | price_below
  deriving Repr, DecidableEq

/-- The string tag each option submits. -/
def AlertCondition.tag : AlertCondition → String
  | .zscore_above => "zscore_above"
  | .zscore_below => "zscore_below"
  | .price_above => "price_above"
  | .price_below => "price_below"

/-- The alert-creation form state (AlertModal.jsx lines 5-10). `valueParse`
stands for `parseFloat(formData.value)`: `none` models a NaN parse of the
threshold text. -/
structure AlertFormData where
  name : String
  condition : AlertCondition
  symbol : String
  valueParse : Option Rat

/-- A rule-creation request as POSTed to `/api/alerts`. -/
structure AlertRequest where
  name : String
  condition : AlertCondition
  symbol : String
  value : Rat

/-- `handleSubmit` (AlertModal.jsx lines 24-58) up to the network call:
returns the request body it would send, or `none` when validation stops the
submission (NaN threshold, or empty symbol which is falsy in JS). -/
def handleSubmit (f : AlertFormData) : Option AlertRequest :=
  match f.valueParse with
  | none => none
  | some v =>
      if f.symbol = "" then none
      else some { name := f.name, condition := f.condition, symbol := f.symbol
                  value := v }

/-- Fixture form whose threshold text does not parse. -/
def formNaN : AlertFormData :=
  { name := "a", condition := .zscore_above, symbol := "BTCUSDT"
    valueParse := none }

/-- Fixture form with an empty symbol. -/
def formNoSymbol : AlertFormData :=
  { name := "a", condition := .price_below, symbol := "", valueParse := some 2 }

/-- Fixture form that passes validation. -/
def formGood : AlertFormData :=
  { name := "a", condition := .zscore_above, symbol := "BTCUSDT"
    valueParse := some (5/2) }

/-- Modelled from the spec: the backend RollingStatsEngine (FastAPI service)
is not part of src/, so the per-symbol buffer is modelled from §3/§4.2 of the
specification as the ordered list of window prices, oldest first. -/
structure SymbolBufferModel where
  prices : List Rat
  deriving Repr, DecidableEq

/-- Modelled from the spec: `tick_count` is the number of buffered ticks. -/
def tickCount (b : SymbolBufferModel) : Nat := b.prices.length

/-- Modelled from the spec: the latest price is the newest buffered price. -/
def latestPrice (b : SymbolBufferModel) : Rat := (b.prices.getLast?).getD 0

/-- Mean of a window of prices. -/
def meanOf (l : List Rat) : Rat := l.sum / l.length

/-- Modelled from the spec: sample variance of a window of prices. -/
def sampleVarOf (l : List Rat) : Rat :=
  (l.map (fun x => (x - meanOf l) ^ 2)).sum / (l.length - 1)

/-- Modelled from the spec: the sample standard deviation of the window. -/
noncomputable def stdOf (l : List Rat) : Real :=
  Real.sqrt ((sampleVarOf l : Rat) : Real)

/-- Modelled from the spec (§4.2, §8): the missing backend z-score,
`(latest_price − mean) / std`, null when `tick_count < 20` or when the
standard deviation vanishes (equivalently, the sample variance is zero). -/
noncomputable def zscoreOf (b : SymbolBufferModel) : Option Real :=
  if tickCount b < 20 then none
  else if sampleVarOf b.prices = 0 then none
  else some ((((latestPrice b : Rat) : Real) - ((meanOf b.prices : Rat) : Real))
    / stdOf b.prices)

/-- Fixture buffer with fewer than 20 ticks. -/
def bufSmall : SymbolBufferModel := { prices := [1, 2, 3] }

/-- Fixture buffer with 20 ticks: ten prices of 1 and ten of 3, so the window
mean is 2 and the sample variance is 20/19. -/
def bufBig : SymbolBufferModel :=
  { prices := List.replicate 10 (1 : Rat) ++ List.replicate 10 (3 : Rat) }

/-- One raw point of a price-history response consumed by `formatChartData`;
`price` and `volume` stand for `parseFloat(item.price)` and
`parseFloat(item.volume)` (`none` models a NaN parse). -/
structure PricePoint where
  timestampMs : Nat
  price : Option Rat
  volume : Option Rat
  deriving Repr, DecidableEq

/-- One formatted chart entry (the fields the claim is about: the numeric
price/volume, with `parseFloat(x) || 0` collapsing NaN to 0, and the
`originalIndex` recorded by the mapper). -/
structure ChartEntry where
  price : Rat
  volume : Rat
  originalIndex : Nat
  deriving Repr, DecidableEq

/-- The mapper of `formatChartData`: `(item, index) => {...}`. -/
def toChartEntry (i : Nat) (item : PricePoint) : ChartEntry :=
  { price := item.price.getD 0, volume := item.volume.getD 0
    originalIndex := i }

/-- `slice(-n)`: the last up-to-`n` elements of a list. -/
def sliceLast (n : Nat) (l : List ChartEntry) : List ChartEntry :=
  l.drop (l.length - n)

/-- `formatChartData` (TradingDashboard.jsx lines 520-551): `none` models a
non-array argument (`!data || !Array.isArray(data)`); map each point with its
index, keep the positive-price entries, keep the last 50. -/
def formatChartData (data : Option (List PricePoint)) : List ChartEntry :=
  match data with
  | none => []
  | some l =>
      if l.length = 0 then []
      else sliceLast 50
        ((l.enum.map fun p => toChartEntry p.1 p.2).filter
          (fun e => decide (0 < e.price)))

/-- Fixture price-history response: a NaN price, two positive prices and a
zero price. -/
def demoPoints : List PricePoint :=
  [ { timestampMs := 1000, price := none, volume := some 1 }
  , { timestampMs := 2000, price := some 5, volume := some 2 }
  , { timestampMs := 3000, price := some 0, volume := some 3 }
  , { timestampMs := 4000, price := some 2, volume := none } ]

end TradingApp

namespace TradingApp

/-- C1: the capability gate is a pure function of the data-point count: price
tracking is enabled iff n ≥ 1, volume analysis iff n ≥ 10, z-score iff n ≥ 20,
volatility iff n ≥ 50, correlation and spread trading iff n ≥ 100, hedge ratio
iff n ≥ 150, ADF stationarity iff n ≥ 200, and the `required` field of each entry
equals exactly that threshold. -/
theorem capability_gate_thresholds (n : Nat) :
    ((getCapabilitiesUploadPage n).basicPriceTracking.enabled = true ↔ 1 ≤ n) ∧
    (getCapabilitiesUploadPage n).basicPriceTracking.required = 1 ∧
    ((getCapabilitiesUploadPage n).volumeAnalysis.enabled = true ↔ 10 ≤ n) ∧
    (getCapabilitiesUploadPage n).volumeAnalysis.required = 10 ∧
    ((getCapabilitiesUploadPage n).zScoreCalculation.enabled = true ↔ 20 ≤ n) ∧
    (getCapabilitiesUploadPage n).zScoreCalculation.required = 20 ∧
    ((getCapabilitiesUploadPage n).volatilityMetrics.enabled = true ↔ 50 ≤ n) ∧
    (getCapabilitiesUploadPage n).volatilityMetrics.required = 50 ∧
    ((getCapabilitiesUploadPage n).correlationAnalysis.enabled = true ↔ 100 ≤ n) ∧
    (getCapabilitiesUploadPage n).correlationAnalysis.required = 100 ∧
    ((getCapabilitiesUploadPage n).spreadTrading.enabled = true ↔ 100 ≤ n) ∧
    (getCapabilitiesUploadPage n).spreadTrading.required = 100 ∧
    ((getCapabilitiesUploadPage n).hedgeRatioCalc.enabled = true ↔ 150 ≤ n) ∧
    (getCapabilitiesUploadPage n).hedgeRatioCalc.required = 150 ∧
    ((getCapabilitiesUploadPage n).adfStationarity.enabled = true ↔ 200 ≤ n) ∧
    (getCapabilitiesUploadPage n).adfStationarity.required = 200 := by
  simp [getCapabilitiesUploadPage]

/-- C6: the two independently defined capability derivations (upload page and
upload widget) agree: for every data-point count they produce identical enabled
flags and identical required thresholds for every feature. -/
theorem capability_gate_equivalent (n : Nat) :
    (getCapabilitiesUploadPage n).gateList = (getCapabilitiesWidget n).gateList := by
  simp [getCapabilitiesUploadPage, getCapabilitiesWidget, Capabilities.gateList]

/-- C10: the capability gate is monotone in the data-point count; at n ≥ 200
every feature is enabled, and at n = 0 none are. -/
theorem capability_gate_monotone (m n : Nat) (hmn : m ≤ n) :
    (∀ p ∈ ((getCapabilitiesUploadPage m).gateList.zip
        (getCapabilitiesUploadPage n).gateList),
      p.1.1 = true → p.2.1 = true) ∧
    (200 ≤ n → ∀ e ∈ (getCapabilitiesUploadPage n).gateList, e.1 = true) ∧
    (∀ e ∈ (getCapabilitiesUploadPage 0).gateList, e.1 = false) := by
  refine ⟨?_, ?_, ?_⟩
  · intro p hp h1
    simp only [getCapabilitiesUploadPage, Capabilities.gateList, List.zip,
      List.zipWith, List.mem_cons, List.not_mem_nil, or_false] at hp
    rcases hp with h | h | h | h | h | h | h | h | h <;>
      (subst h; simp_all; omega)
  · intro h200 e he
    simp only [getCapabilitiesUploadPage, Capabilities.gateList,
      List.mem_cons, List.not_mem_nil, or_false] at he
    rcases he with h | h | h | h | h | h | h | h | h <;>
      (subst h; simp; omega)
  · intro e he
    simp only [getCapabilitiesUploadPage, Capabilities.gateList,
      List.mem_cons, List.not_mem_nil, or_false] at he
    rcases he with h | h | h | h | h | h | h | h | h <;> (subst h; simp)

/-- Witness for C10 at m = 150, n = 250. -/
theorem capability_gate_monotone_witness :
    (∀ p ∈ ((getCapabilitiesUploadPage 150).gateList.zip
        (getCapabilitiesUploadPage 250).gateList),
      p.1.1 = true → p.2.1 = true) ∧
    (200 ≤ 250 → ∀ e ∈ (getCapabilitiesUploadPage 250).gateList, e.1 = true) ∧
    (∀ e ∈ (getCapabilitiesUploadPage 0).gateList, e.1 = false) :=
  capability_gate_monotone 150 250 (by decide)

/-- One `alert_triggered` event leaves at most 100 entries. -/
theorem onAlertTriggered_length_le (prev : List TriggeredAlert)
    (a : TriggeredAlert) : (onAlertTriggered prev a).length ≤ 100 := by
  simp only [onAlertTriggered, List.length_cons, List.length_take]
  omega

/-- Folding events over a history of at most 100 entries stays at most 100. -/
theorem foldl_onAlertTriggered_length_le (events : List TriggeredAlert) :
    ∀ prev : List TriggeredAlert, prev.length ≤ 100 →
      (events.foldl onAlertTriggered prev).length ≤ 100 := by
  induction events with
  | nil => intro prev h; simpa using h
  | cons a rest ih =>
      intro prev _
      simpa using ih (onAlertTriggered prev a) (onAlertTriggered_length_le prev a)

/-- C2: for every sequence of incoming `alert_triggered` events, the
triggered-alert history (newest-first) holds at most 100 entries after each
event, and an arrival on a full history discards exactly the oldest (last)
entry while the new alert is kept at the front. -/
theorem triggeredAlerts_history_cap (events : List TriggeredAlert)
    (prev : List TriggeredAlert) (a : TriggeredAlert)
    (hfull : prev.length = 100) :
    (events.foldl onAlertTriggered []).length ≤ 100 ∧
    onAlertTriggered prev a = a :: prev.dropLast := by
  constructor
  · exact foldl_onAlertTriggered_length_le events [] (by simp)
  · simp only [onAlertTriggered, List.dropLast_eq_take, hfull]

/-- Witness for C2 on a two-event stream and a full history of 100 entries. -/
theorem triggeredAlerts_history_cap_witness :
    (([taFix, taFix2] : List TriggeredAlert).foldl onAlertTriggered []).length ≤ 100 ∧
    onAlertTriggered (List.replicate 100 taFix) taFix2 =
      taFix2 :: (List.replicate 100 taFix).dropLast :=
  triggeredAlerts_history_cap [taFix, taFix2] (List.replicate 100 taFix) taFix2
    (by simp)

/-- C3 counterexample: `caB` differs from the stored snapshot `caA` only in
the `correlation` field, yet `updateAnalytics` suppresses it (keeps `caA`),
so a change of the tracked field `correlation` does not cause a replace. -/
theorem updateAnalytics_correlation_suppressed :
    caA.correlation ≠ caB.correlation ∧
    caA.price = caB.price ∧ caA.zscore = caB.zscore ∧ caA.spread = caB.spread ∧
    updateAnalytics (some caA) caB = some caA ∧
    (some caA : Option Analytics) ≠ some caB := by
  refine ⟨by decide, by decide, by decide, by decide, ?_, by decide⟩
  simp [updateAnalytics, caA, caB]

/-- C3 amended: a snapshot is suppressed exactly when none of `price`,
`zscore`, `spread` changed (`correlation` is not among the compared fields);
when any of those three changed, the new snapshot replaces the stored one,
and with no stored snapshot the incoming one is always applied. -/
theorem updateAnalytics_tracked_fields (p next : Analytics) :
    (updateAnalytics none next = some next) ∧
    (p.price = next.price ∧ p.zscore = next.zscore ∧ p.spread = next.spread →
      updateAnalytics (some p) next = some p) ∧
    ((p.price ≠ next.price ∨ p.zscore ≠ next.zscore ∨ p.spread ≠ next.spread) →
      updateAnalytics (some p) next = some next) := by
  refine ⟨rfl, ?_, ?_⟩
  · rintro ⟨h1, h2, h3⟩
    simp [updateAnalytics, h1, h2, h3]
  · intro h
    simp only [updateAnalytics, ne_eq, if_pos h]

/-- Witness for the amended statement of C3 on concrete snapshots: `caB` (only
correlation differs) is suppressed, `caC` (price differs) replaces. -/
theorem updateAnalytics_tracked_fields_witness :
    updateAnalytics none caB = some caB ∧
    updateAnalytics (some caA) caB = some caA ∧
    updateAnalytics (some caA) caC = some caC :=
  ⟨(updateAnalytics_tracked_fields caA caB).1,
   (updateAnalytics_tracked_fields caA caB).2.1 (by decide),
   (updateAnalytics_tracked_fields caA caC).2.2 (by decide)⟩

/-- C5: deleting an alert id from the local alerts list keeps a subsequence
of the original (order and entries unchanged), no surviving entry carries the
deleted id, and every entry counts exactly as before unless its id is the
deleted one, in which case it is gone. -/
theorem deleteAlert_filters_id (l : List AlertRule) (alertId : Nat) :
    (deleteAlertLocal l alertId).Sublist l ∧
    (∀ a ∈ deleteAlertLocal l alertId, a.id ≠ alertId) ∧
    (∀ a : AlertRule, (deleteAlertLocal l alertId).count a =
      if a.id = alertId then 0 else l.count a) := by
  refine ⟨List.filter_sublist l, ?_, ?_⟩
  · intro a ha
    have := (List.mem_filter.mp ha).2
    simpa using this
  · intro a
    by_cases h : a.id = alertId
    · simp only [if_pos h, List.count_eq_zero]
      intro hmem
      have := (List.mem_filter.mp hmem).2
      simp [h] at this
    · rw [if_neg h]
      exact List.count_filter (by simpa using h)

/-- Witness for C5 on a three-entry list holding id 2 once and id 1 twice. -/
theorem deleteAlert_filters_id_witness :
    (deleteAlertLocal demoAlerts 2).Sublist demoAlerts ∧
    (ruleFix1 ∈ deleteAlertLocal demoAlerts 2 → ruleFix1.id ≠ 2) ∧
    (deleteAlertLocal demoAlerts 2).count ruleFix2 = 0 :=
  ⟨(deleteAlert_filters_id demoAlerts 2).1,
   fun h => (deleteAlert_filters_id demoAlerts 2).2.1 ruleFix1 h,
   by simpa using (deleteAlert_filters_id demoAlerts 2).2.2 ruleFix2⟩

/-- `appendCapped` in one closed form. -/
theorem appendCapped_eq (prev : List ZPoint) (p : ZPoint) :
    appendCapped prev p = prev.drop (prev.length + 1 - 100) ++ [p] := by
  unfold appendCapped MAX_HISTORY_POINTS
  simp only [List.length_append, List.length_singleton]
  split
  · next h =>
      rw [List.drop_append_of_le_length (by omega)]
  · next h =>
      have h0 : prev.length + 1 - 100 = 0 := by omega
      simp [h0]

/-- C4 counterexample: with the history holding the point formatted
"10:00:05", the incoming point formatted "10:00:03" precedes it, yet it is
appended rather than rejected, and the resulting history is no longer in
non-decreasing timestamp order (for either the z-score or the spread
history, which share this update). -/
theorem zscoreHistory_stale_point_appended :
    zB.ts.data < zA.ts.data ∧
    pushZscore [zA] zB = [zA, zB] ∧
    pushZscore [zA] zB ≠ [zA] ∧
    ¬ List.Sorted (fun u v : ZPoint => u.ts.data ≤ v.ts.data)
      (pushZscore [zA] zB) := by
  refine ⟨by decide, by decide, by decide, by decide⟩

/-- C4 amended: the history update rejects a new point exactly when its
formatted timestamp equals that of the latest stored point (deduplication);
otherwise — also when the new timestamp precedes the latest one — the point
is appended at the end and the history truncated to its most recent 100
entries, so the length stays at most 100 but timestamp order is not
restored. -/
theorem pushZscore_dedup_only (prev : List ZPoint) (p : ZPoint) :
    (∀ lp, prev.getLast? = some lp → lp.ts = p.ts → pushZscore prev p = prev) ∧
    ((∀ lp, prev.getLast? = some lp → lp.ts ≠ p.ts) →
      (pushZscore prev p).getLast? = some p ∧
      (pushZscore prev p).length = min (prev.length + 1) 100 ∧
      pushZscore prev p <:+ prev ++ [p]) ∧
    (prev.length ≤ 100 → (pushZscore prev p).length ≤ 100) := by
  have hcap : appendCapped prev p = prev.drop (prev.length + 1 - 100) ++ [p] :=
    appendCapped_eq prev p
  have hlast : (appendCapped prev p).getLast? = some p := by
    rw [hcap]; exact List.getLast?_concat _
  have hlen : (appendCapped prev p).length = min (prev.length + 1) 100 := by
    rw [hcap]
    simp only [List.length_append, List.length_singleton, List.length_drop]
    omega
  have hsuf : appendCapped prev p <:+ prev ++ [p] := by
    rw [hcap]
    exact ⟨prev.take (prev.length + 1 - 100),
      by rw [← List.append_assoc, List.take_append_drop]⟩
  refine ⟨?_, ?_, ?_⟩
  · intro lp hlp hts
    simp [pushZscore, hlp, hts]
  · intro hne
    cases hget : prev.getLast? with
    | none => simpa [pushZscore, hget] using ⟨hlast, hlen, hsuf⟩
    | some lp =>
        have : ¬ lp.ts = p.ts := hne lp hget
        simpa [pushZscore, hget, this] using ⟨hlast, hlen, hsuf⟩
  · intro hle
    cases hget : prev.getLast? with
    | none => simp only [pushZscore, hget, hlen]; omega
    | some lp =>
        by_cases hts : lp.ts = p.ts
        · simpa [pushZscore, hget, hts] using hle
        · simp only [pushZscore, hget, if_neg hts, hlen]; omega

/-- Witness for the amended statement of C4: a duplicate-timestamp point is
dropped, the earlier-timestamp point `zB` is appended after `zA`, and the
length bound holds. -/
theorem pushZscore_dedup_only_witness :
    pushZscore [zA] zA2 = [zA] ∧
    ((pushZscore [zA] zB).getLast? = some zB ∧
      (pushZscore [zA] zB).length = min ([zA].length + 1) 100 ∧
      pushZscore [zA] zB <:+ [zA] ++ [zB]) ∧
    (pushZscore [zA] zB).length ≤ 100 :=
  ⟨(pushZscore_dedup_only [zA] zA2).1 zA rfl (by decide),
   (pushZscore_dedup_only [zA] zB).2.1
     (by intro lp h; rw [show ([zA].getLast? : Option ZPoint) = some zA from rfl]
           at h
         injection h with h2
         subst h2; decide),
   (pushZscore_dedup_only [zA] zB).2.2 (by decide)⟩

/-- C7: every request the creation form submits carries a condition from the
closed set offered by the select element and the parsed numeric threshold;
a NaN threshold or an empty symbol stops the submission with no request. -/
theorem alertModal_validation (f : AlertFormData) :
    (∀ r, handleSubmit f = some r →
      (r.condition = .zscore_above ∨ r.condition = .zscore_below ∨
        r.condition = .price_above ∨ r.condition = .price_below) ∧
      f.valueParse = some r.value) ∧
    (f.valueParse = none → handleSubmit f = none) ∧
    (f.symbol = "" → handleSubmit f = none) := by
  refine ⟨?_, ?_, ?_⟩
  · intro r hr
    constructor
    · cases r.condition <;> simp
    · cases hv : f.valueParse with
      | none => simp [handleSubmit, hv] at hr
      | some v =>
          simp only [handleSubmit, hv] at hr
          by_cases hs : f.symbol = ""
          · simp [hs] at hr
          · simp only [if_neg hs, Option.some.injEq] at hr
            subst hr
            rfl
  · intro hv
    simp [handleSubmit, hv]
  · intro hs
    cases hv : f.valueParse with
    | none => simp [handleSubmit, hv]
    | some v => simp [handleSubmit, hv, hs]

/-- Witness for C7: the valid fixture form yields a request with a closed-set
condition and the parsed threshold; the NaN-threshold and empty-symbol
fixture forms yield no request. -/
theorem alertModal_validation_witness :
    ((formGood.condition = .zscore_above ∨ formGood.condition = .zscore_below ∨
        formGood.condition = .price_above ∨ formGood.condition = .price_below) ∧
      formGood.valueParse = some (5/2 : Rat)) ∧
    handleSubmit formNaN = none ∧
    handleSubmit formNoSymbol = none :=
  ⟨(alertModal_validation formGood).1
      { name := "a", condition := .zscore_above, symbol := "BTCUSDT"
        value := 5/2 } rfl,
   (alertModal_validation formNaN).2.1 rfl,
   (alertModal_validation formNoSymbol).2.2 rfl⟩

/-- C8: the z-score is null whenever the tick count is below the 20-point
minimum window, and once the window holds at least 20 ticks and the standard
deviation is nonzero it equals `(latest − mean)/std`, a pure function of the
buffer contents. -/
theorem zscore_minimum_window (b : SymbolBufferModel) :
    (tickCount b < 20 → zscoreOf b = none) ∧
    (20 ≤ tickCount b → stdOf b.prices ≠ 0 →
      zscoreOf b = some ((((latestPrice b : Rat) : Real)
        - ((meanOf b.prices : Rat) : Real)) / stdOf b.prices)) := by
  constructor
  · intro h
    simp [zscoreOf, h]
  · intro h20 hstd
    have hvar : sampleVarOf b.prices ≠ 0 := by
      intro h0
      apply hstd
      simp [stdOf, h0]
    simp [zscoreOf, Nat.not_lt.mpr h20, hvar]

/-- Witness for C8: the 3-tick fixture buffer has a null z-score; the 20-tick
fixture buffer (sample variance 20/19) has the formula value. -/
theorem zscore_minimum_window_witness :
    zscoreOf bufSmall = none ∧
    zscoreOf bufBig = some ((((latestPrice bufBig : Rat) : Real)
      - ((meanOf bufBig.prices : Rat) : Real)) / stdOf bufBig.prices) :=
  ⟨(zscore_minimum_window bufSmall).1 (by decide),
   (zscore_minimum_window bufBig).2 (by decide)
     (by
       have hv : sampleVarOf bufBig.prices = 20/19 := by
         simp [sampleVarOf, meanOf, bufBig, List.replicate]
         norm_num
       rw [stdOf, hv, Ne, Real.sqrt_eq_zero (by norm_num)]
       norm_num)⟩

/-- C9: `formatChartData` is total and bounded: `none` (a non-array argument)
and the empty list yield `[]`; otherwise the output holds at most 50 entries,
each with positive price, in the relative order of the input entries (a sublist of
the index-mapped input). -/
theorem formatChartData_total_bounded (data : Option (List PricePoint)) :
    formatChartData none = [] ∧
    formatChartData (some []) = [] ∧
    (formatChartData data).length ≤ 50 ∧
    (∀ e ∈ formatChartData data, 0 < e.price) ∧
    (∀ l, data = some l →
      (formatChartData data).Sublist
        (l.enum.map fun p => toChartEntry p.1 p.2)) := by
  refine ⟨rfl, rfl, ?_, ?_, ?_⟩
  · cases data with
    | none => simp [formatChartData]
    | some l =>
        by_cases h : l.length = 0
        · simp [formatChartData, h]
        · simp only [formatChartData, if_neg h, sliceLast, List.length_drop]
          omega
  · intro e he
    cases data with
    | none => simp [formatChartData] at he
    | some l =>
        by_cases h : l.length = 0
        · simp [formatChartData, h] at he
        · simp only [formatChartData, if_neg h, sliceLast] at he
          have hmem := List.mem_of_mem_drop he
          have := (List.mem_filter.mp hmem).2
          simpa using this
  · intro l hl
    subst hl
    by_cases h : l.length = 0
    · simp [formatChartData, h]
    · simp only [formatChartData, if_neg h, sliceLast]
      exact (List.drop_sublist _ _).trans (List.filter_sublist _)

/-- Witness for C9 on the fixture response: the NaN-price and zero-price
points are gone, the positive points survive in order. -/
theorem formatChartData_total_bounded_witness :
    (formatChartData (some demoPoints)).length ≤ 50 ∧
    (toChartEntry 1 { timestampMs := 2000, price := some 5, volume := some 2 }
        ∈ formatChartData (some demoPoints) →
      0 < (toChartEntry 1
        { timestampMs := 2000, price := some 5, volume := some 2 }).price) ∧
    (formatChartData (some demoPoints)).Sublist
      (demoPoints.enum.map fun p => toChartEntry p.1 p.2) :=
  ⟨(formatChartData_total_bounded (some demoPoints)).2.2.1,
   fun h => (formatChartData_total_bounded (some demoPoints)).2.2.2.1 _ h,
   (formatChartData_total_bounded (some demoPoints)).2.2.2.2 demoPoints rfl⟩

end TradingApp
